import Mathlib

/-!
Verification of the Intcode virtual machine engine of
`papibe/advent-of-code-2022-rust`.

The engine is implemented twice in the repository:

* `src/day25_part1/src/main.rs` — `IntcodeComputer` with a persistent
  `relative_base` field; `run` suspends (returns early, non-halted) when an
  input instruction finds the input queue empty.
* `src/day19_part2/src/main.rs` — `IntcodeComputer` with a saved `original`
  image plus `new`/`reset`; `relative_base` is a local variable of `run`
  (re-initialised to zero on every invocation) and the input instruction pops
  the queue unconditionally (`unwrap`), i.e. the blocking variant.

Both are embedded below, one per namespace.  Rust `i64` arithmetic is
embedded as `Int` (the programs under consideration stay far from the 64-bit
boundary); Rust's truncating `%` and `/` on `i64` are `Int.tmod` and
`Int.tdiv`.  The `HashMap<i64, i64>` memory with `entry(..).or_insert(0)`
reads is embedded as a total function `Int → Int` defaulting to 0: the
`or_insert(0)` side effect writes the value that would be read anyway, so it
is invisible in the address-to-value view.  Rust panics (`panic!`,
`unwrap` on an empty queue) are embedded as `Except VMError` results.
The unused `_name` debug field of the day19 struct is omitted.
-/

/-- The fatal conditions of the engine.  `invalidOpcode` models the
`panic!("Unknown operation: ...")` in `OperationType::from_i64`;
`invalidParameterMode` the `panic!("Unknown parameter mode: ...")` in
`ParameterMode::from_i64`; `invalidWriteMode` the
`panic!("Incorrect ... parameter mode: ...")` arms for write targets in
`sum`/`mul`/`lth`/`eql`/`cpy`; `emptyInput` the `unwrap()` on an empty
input queue in `cpy` (reachable only in the day19 blocking variant). -/
inductive VMError where
  | invalidOpcode : Int → VMError
  | invalidParameterMode : Int → VMError
  | invalidWriteMode : VMError
  | emptyInput : VMError
deriving DecidableEq

/-- The `OperationType` enum of both sources. -/
inductive OperationType where
  | SUM | MUL | CPY | OUT | JIT | JIF | LTH | EQL | ARB | END
deriving DecidableEq

/-- `OperationType::from_i64`: the `match` over the decoded opcode; the
wildcard arm panics with "Unknown operation". -/
def OperationType.from_i64 (number : Int) : Except VMError OperationType :=
  if number = 1 then .ok .SUM
  else if number = 2 then .ok .MUL
  else if number = 3 then .ok .CPY
  else if number = 4 then .ok .OUT
  else if number = 5 then .ok .JIT
  else if number = 6 then .ok .JIF
  else if number = 7 then .ok .LTH
  else if number = 8 then .ok .EQL
  else if number = 9 then .ok .ARB
  else if number = 99 then .ok .END
  else .error (.invalidOpcode number)

/-- The `ParameterMode` enum of both sources. -/
inductive ParameterMode where
  | PositionMode | ImmediateMode | RelativeMode
deriving DecidableEq

/-- `ParameterMode::from_i64`: the `match` over a mode digit; the wildcard
arm panics with "Unknown parameter mode". -/
def ParameterMode.from_i64 (number : Int) : Except VMError ParameterMode :=
  if number = 0 then .ok .PositionMode
  else if number = 1 then .ok .ImmediateMode
  else if number = 2 then .ok .RelativeMode
  else .error (.invalidParameterMode number)

/-- The `Operation` struct of both sources. -/
structure Operation where
  operation : OperationType
  first_parameter_mode : ParameterMode
  second_parameter_mode : ParameterMode
  third_parameter_mode : ParameterMode
deriving DecidableEq

/-- `HashMap::insert` on the address-to-value view of the memory map. -/
def store (mem : Int → Int) (a v : Int) : Int → Int :=
  fun x => if x = a then v else mem x

/-- The `parse` function of both sources, after file reading and integer
parsing (out of scope): the loop inserting `(index, value)` for every
element of the comma-separated list, viewed as a total map defaulting
to 0 (the `or_insert(0)` read default). -/
def parse (l : List Int) : Int → Int :=
  fun a => if h : 0 ≤ a ∧ a.toNat < l.length then l.get ⟨a.toNat, h.2⟩ else 0

namespace Day25

/-- The `IntcodeComputer` struct of `src/day25_part1/src/main.rs`:
`relative_base` is a persistent field of the machine. -/
structure IntcodeComputer where
  program : Int → Int
  pointer : Int
  halted : Bool
  relative_base : Int

/-- The machine literal constructed in `solution`:
`IntcodeComputer { program, pointer: 0, halted: false, relative_base: 0 }`. -/
def mkComputer (program : Int → Int) : IntcodeComputer :=
  { program := program, pointer := 0, halted := false, relative_base := 0 }

/-- `IntcodeComputer::parse_instruction`: opcode is the word `% 100`
(truncating), then successive `/ 10` of the word `/ 100` yields the three
mode digits; field initialisers run in order, so an invalid opcode panics
before any invalid mode digit is examined. -/
def parse_instruction (m : IntcodeComputer) : Except VMError Operation :=
  let instruction := m.program m.pointer
  let operation := instruction.tmod 100
  let parameters := instruction.tdiv 100
  let first_parameter_mode := parameters.tmod 10
  let parameters2 := parameters.tdiv 10
  let second_parameter_mode := parameters2.tmod 10
  let parameters3 := parameters2.tdiv 10
  let third_parameter_mode := parameters3.tmod 10
  do
    let op ← OperationType.from_i64 operation
    let fpm ← ParameterMode.from_i64 first_parameter_mode
    let spm ← ParameterMode.from_i64 second_parameter_mode
    let tpm ← ParameterMode.from_i64 third_parameter_mode
    pure ⟨op, fpm, spm, tpm⟩

/-- `IntcodeComputer::get_parameter` (day25: `relative_base` read from the
machine field). -/
def get_parameter (m : IntcodeComputer) (parameter_mode : ParameterMode)
    (offset : Int) : Int :=
  match parameter_mode with
  | .PositionMode => m.program (m.program (m.pointer + offset))
  | .ImmediateMode => m.program (m.pointer + offset)
  | .RelativeMode => m.program (m.relative_base + m.program (m.pointer + offset))

/-- `IntcodeComputer::get_first_parameter`. -/
def get_first_parameter (m : IntcodeComputer) (pm : ParameterMode) : Int :=
  get_parameter m pm 1

/-- `IntcodeComputer::get_second_parameter`. -/
def get_second_parameter (m : IntcodeComputer) (pm : ParameterMode) : Int :=
  get_parameter m pm 2

/-- The `result_index` match duplicated verbatim in `sum`, `mul`, `lth` and
`eql`: position mode uses the raw third word as destination, relative mode
adds the relative base, immediate mode panics
("Incorrect third parameter mode"). -/
def result_index (m : IntcodeComputer) (mode : ParameterMode) :
    Except VMError Int :=
  match mode with
  | .PositionMode => .ok (m.program (m.pointer + 3))
  | .RelativeMode => .ok (m.relative_base + m.program (m.pointer + 3))
  | .ImmediateMode => .error .invalidWriteMode

/-- `IntcodeComputer::sum`. -/
def sum (m : IntcodeComputer) (op : Operation) :
    Except VMError IntcodeComputer := do
  let parameter1 := get_first_parameter m op.first_parameter_mode
  let parameter2 := get_second_parameter m op.second_parameter_mode
  let idx ← result_index m op.third_parameter_mode
  pure { m with program := store m.program idx (parameter1 + parameter2),
                pointer := m.pointer + 4 }

/-- `IntcodeComputer::mul`. -/
def mul (m : IntcodeComputer) (op : Operation) :
    Except VMError IntcodeComputer := do
  let parameter1 := get_first_parameter m op.first_parameter_mode
  let parameter2 := get_second_parameter m op.second_parameter_mode
  let idx ← result_index m op.third_parameter_mode
  pure { m with program := store m.program idx (parameter1 * parameter2),
                pointer := m.pointer + 4 }

/-- `IntcodeComputer::cpy`: pops the front of the input queue (`unwrap`
panics on an empty queue — unreachable from day25's `run`, which guards) and
writes it through the first parameter's mode; immediate mode panics
("Incorrect first parameter mode"). -/
def cpy (m : IntcodeComputer) (input : List Int) (op : Operation) :
    Except VMError (IntcodeComputer × List Int) :=
  match input with
  | [] => .error .emptyInput
  | v :: rest =>
    match op.first_parameter_mode with
    | .PositionMode =>
        .ok ({ m with program := store m.program (m.program (m.pointer + 1)) v,
                      pointer := m.pointer + 2 }, rest)
    | .RelativeMode =>
        .ok ({ m with
               program :=
                 store m.program (m.relative_base + m.program (m.pointer + 1)) v,
               pointer := m.pointer + 2 }, rest)
    | .ImmediateMode => .error .invalidWriteMode

/-- `IntcodeComputer::out`: returns the machine with the pointer advanced
and the value pushed onto the output buffer. -/
def out (m : IntcodeComputer) (op : Operation) : IntcodeComputer × Int :=
  ({ m with pointer := m.pointer + 2 },
   get_first_parameter m op.first_parameter_mode)

/-- `IntcodeComputer::jit`. -/
def jit (m : IntcodeComputer) (op : Operation) : IntcodeComputer :=
  let parameter1 := get_first_parameter m op.first_parameter_mode
  let parameter2 := get_second_parameter m op.second_parameter_mode
  if parameter1 ≠ 0 then { m with pointer := parameter2 }
  else { m with pointer := m.pointer + 3 }

/-- `IntcodeComputer::jif`. -/
def jif (m : IntcodeComputer) (op : Operation) : IntcodeComputer :=
  let parameter1 := get_first_parameter m op.first_parameter_mode
  let parameter2 := get_second_parameter m op.second_parameter_mode
  if parameter1 = 0 then { m with pointer := parameter2 }
  else { m with pointer := m.pointer + 3 }

/-- `IntcodeComputer::lth`: inserts 1 when `parameter1 < parameter2`,
else 0. -/
def lth (m : IntcodeComputer) (op : Operation) :
    Except VMError IntcodeComputer := do
  let parameter1 := get_first_parameter m op.first_parameter_mode
  let parameter2 := get_second_parameter m op.second_parameter_mode
  let idx ← result_index m op.third_parameter_mode
  pure { m with
         program := store m.program idx (if parameter1 < parameter2 then 1 else 0),
         pointer := m.pointer + 4 }

/-- `IntcodeComputer::eql`: inserts 1 when `parameter1 == parameter2`,
else 0. -/
def eql (m : IntcodeComputer) (op : Operation) :
    Except VMError IntcodeComputer := do
  let parameter1 := get_first_parameter m op.first_parameter_mode
  let parameter2 := get_second_parameter m op.second_parameter_mode
  let idx ← result_index m op.third_parameter_mode
  pure { m with
         program := store m.program idx (if parameter1 = parameter2 then 1 else 0),
         pointer := m.pointer + 4 }

/-- `IntcodeComputer::arb`: adds the first parameter to the relative base. -/
def arb (m : IntcodeComputer) (op : Operation) : IntcodeComputer :=
  { m with
    relative_base := m.relative_base + get_first_parameter m op.first_parameter_mode,
    pointer := m.pointer + 2 }

/-- Outcome of one iteration of the `loop` body of day25's `run`. -/
inductive StepOut where
  | cont (m : IntcodeComputer) (input : List Int) (output : List Int)
  | suspendRet
  | haltBrk
  | failPanic (e : VMError)

/-- The `match operation.operation` block of day25's `run`: the `CPY` arm
returns early (suspension) when the input queue is empty; the `END` arm
breaks out of the loop. -/
def execOp (m : IntcodeComputer) (op : Operation) (input output : List Int) :
    StepOut :=
  match op.operation with
  | .SUM => match sum m op with
            | .ok m₁ => .cont m₁ input output
            | .error e => .failPanic e
  | .MUL => match mul m op with
            | .ok m₁ => .cont m₁ input output
            | .error e => .failPanic e
  | .CPY =>
      if input.isEmpty then .suspendRet
      else match cpy m input op with
           | .ok (m₁, rest) => .cont m₁ rest output
           | .error e => .failPanic e
  | .OUT => let r := out m op
            .cont r.1 input (output ++ [r.2])
  | .JIT => .cont (jit m op) input output
  | .JIF => .cont (jif m op) input output
  | .LTH => match lth m op with
            | .ok m₁ => .cont m₁ input output
            | .error e => .failPanic e
  | .EQL => match eql m op with
            | .ok m₁ => .cont m₁ input output
            | .error e => .failPanic e
  | .ARB => .cont (arb m op) input output
  | .END => .haltBrk

/-- Result of an invocation of `run`: the machine after the call, the
remaining input queue, and the output buffer returned to the host;
`failed` is a panic, `fuelOut` means the supplied fuel bound was reached. -/
inductive RunResult where
  | done (m : IntcodeComputer) (input : List Int) (output : List Int)
  | failed (e : VMError)
  | fuelOut (m : IntcodeComputer) (input : List Int) (output : List Int)

/-- The `loop` of day25's `run`, with an explicit fuel bound.  A `CPY` with
an empty queue returns the output so far, leaving the machine untouched;
an `END` breaks, after which `run` sets `halted := true`. -/
def runLoop : Nat → IntcodeComputer → List Int → List Int → RunResult
  | 0, m, input, output => .fuelOut m input output
  | n + 1, m, input, output =>
    match parse_instruction m with
    | .error e => .failed e
    | .ok op =>
      match execOp m op input output with
      | .cont m₁ input₁ output₁ => runLoop n m₁ input₁ output₁
      | .suspendRet => .done m input output
      | .haltBrk => .done { m with halted := true } input output
      | .failPanic e => .failed e

/-- `IntcodeComputer::run` (day25): the output buffer starts empty on every
invocation. -/
def run (fuel : Nat) (m : IntcodeComputer) (input : List Int) : RunResult :=
  runLoop fuel m input []

/-- The output buffer a `run` invocation returns, when it returns. -/
def runOutput (fuel : Nat) (m : IntcodeComputer) (input : List Int) :
    Option (List Int) :=
  match run fuel m input with
  | .done _ _ output => some output
  | _ => none

/-- The halted flag of the machine after a `run` invocation returns. -/
def runHaltedFlag (fuel : Nat) (m : IntcodeComputer) (input : List Int) :
    Option Bool :=
  match run fuel m input with
  | .done m₁ _ _ => some m₁.halted
  | _ => none

end Day25

namespace Day19

/-- The `IntcodeComputer` struct of `src/day19_part2/src/main.rs`: it keeps
a saved `original` image; `relative_base` is not a field (it is a local
variable of `run`).  The unused `_name` debug field is omitted. -/
structure IntcodeComputer where
  original : Int → Int
  program : Int → Int
  pointer : Int
  halted : Bool

/-- `IntcodeComputer::new`: clones the image into both `original` and
`program`. -/
def new (program : Int → Int) : IntcodeComputer :=
  { original := program, program := program, pointer := 0, halted := false }

/-- `IntcodeComputer::reset`: reinstalls a copy of `original`, zeroes the
pointer, clears the halted flag; `original` itself is untouched. -/
def reset (m : IntcodeComputer) : IntcodeComputer :=
  { m with program := m.original, pointer := 0, halted := false }

/-- `IntcodeComputer::parse_instruction` (day19; textually identical to the
day25 copy). -/
def parse_instruction (m : IntcodeComputer) : Except VMError Operation :=
  let instruction := m.program m.pointer
  let operation := instruction.tmod 100
  let parameters := instruction.tdiv 100
  let first_parameter_mode := parameters.tmod 10
  let parameters2 := parameters.tdiv 10
  let second_parameter_mode := parameters2.tmod 10
  let parameters3 := parameters2.tdiv 10
  let third_parameter_mode := parameters3.tmod 10
  do
    let op ← OperationType.from_i64 operation
    let fpm ← ParameterMode.from_i64 first_parameter_mode
    let spm ← ParameterMode.from_i64 second_parameter_mode
    let tpm ← ParameterMode.from_i64 third_parameter_mode
    pure ⟨op, fpm, spm, tpm⟩

/-- `IntcodeComputer::get_parameter` (day19: `relative_base` passed in). -/
def get_parameter (m : IntcodeComputer) (parameter_mode : ParameterMode)
    (relative_base offset : Int) : Int :=
  match parameter_mode with
  | .PositionMode => m.program (m.program (m.pointer + offset))
  | .ImmediateMode => m.program (m.pointer + offset)
  | .RelativeMode => m.program (relative_base + m.program (m.pointer + offset))

/-- `IntcodeComputer::get_first_parameter` (day19). -/
def get_first_parameter (m : IntcodeComputer) (pm : ParameterMode)
    (relative_base : Int) : Int :=
  get_parameter m pm relative_base 1

/-- `IntcodeComputer::get_second_parameter` (day19). -/
def get_second_parameter (m : IntcodeComputer) (pm : ParameterMode)
    (relative_base : Int) : Int :=
  get_parameter m pm relative_base 2

/-- The `result_index` match duplicated in day19's `sum`/`mul`/`lth`/`eql`. -/
def result_index (m : IntcodeComputer) (mode : ParameterMode)
    (relative_base : Int) : Except VMError Int :=
  match mode with
  | .PositionMode => .ok (m.program (m.pointer + 3))
  | .RelativeMode => .ok (relative_base + m.program (m.pointer + 3))
  | .ImmediateMode => .error .invalidWriteMode

/-- `IntcodeComputer::sum` (day19). -/
def sum (m : IntcodeComputer) (op : Operation) (relative_base : Int) :
    Except VMError IntcodeComputer := do
  let parameter1 := get_first_parameter m op.first_parameter_mode relative_base
  let parameter2 := get_second_parameter m op.second_parameter_mode relative_base
  let idx ← result_index m op.third_parameter_mode relative_base
  pure { m with program := store m.program idx (parameter1 + parameter2),
                pointer := m.pointer + 4 }

/-- `IntcodeComputer::mul` (day19). -/
def mul (m : IntcodeComputer) (op : Operation) (relative_base : Int) :
    Except VMError IntcodeComputer := do
  let parameter1 := get_first_parameter m op.first_parameter_mode relative_base
  let parameter2 := get_second_parameter m op.second_parameter_mode relative_base
  let idx ← result_index m op.third_parameter_mode relative_base
  pure { m with program := store m.program idx (parameter1 * parameter2),
                pointer := m.pointer + 4 }

/-- `IntcodeComputer::cpy` (day19): pops the queue unconditionally
(`unwrap` — the blocking policy's fatal empty-input case). -/
def cpy (m : IntcodeComputer) (input : List Int) (op : Operation)
    (relative_base : Int) : Except VMError (IntcodeComputer × List Int) :=
  match input with
  | [] => .error .emptyInput
  | v :: rest =>
    match op.first_parameter_mode with
    | .PositionMode =>
        .ok ({ m with program := store m.program (m.program (m.pointer + 1)) v,
                      pointer := m.pointer + 2 }, rest)
    | .RelativeMode =>
        .ok ({ m with
               program :=
                 store m.program (relative_base + m.program (m.pointer + 1)) v,
               pointer := m.pointer + 2 }, rest)
    | .ImmediateMode => .error .invalidWriteMode

/-- `IntcodeComputer::out` (day19). -/
def out (m : IntcodeComputer) (op : Operation) (relative_base : Int) :
    IntcodeComputer × Int :=
  ({ m with pointer := m.pointer + 2 },
   get_first_parameter m op.first_parameter_mode relative_base)

/-- `IntcodeComputer::jit` (day19). -/
def jit (m : IntcodeComputer) (op : Operation) (relative_base : Int) :
    IntcodeComputer :=
  let parameter1 := get_first_parameter m op.first_parameter_mode relative_base
  let parameter2 := get_second_parameter m op.second_parameter_mode relative_base
  if parameter1 ≠ 0 then { m with pointer := parameter2 }
  else { m with pointer := m.pointer + 3 }

/-- `IntcodeComputer::jif` (day19). -/
def jif (m : IntcodeComputer) (op : Operation) (relative_base : Int) :
    IntcodeComputer :=
  let parameter1 := get_first_parameter m op.first_parameter_mode relative_base
  let parameter2 := get_second_parameter m op.second_parameter_mode relative_base
  if parameter1 = 0 then { m with pointer := parameter2 }
  else { m with pointer := m.pointer + 3 }

/-- `IntcodeComputer::lth` (day19). -/
def lth (m : IntcodeComputer) (op : Operation) (relative_base : Int) :
    Except VMError IntcodeComputer := do
  let parameter1 := get_first_parameter m op.first_parameter_mode relative_base
  let parameter2 := get_second_parameter m op.second_parameter_mode relative_base
  let idx ← result_index m op.third_parameter_mode relative_base
  pure { m with
         program := store m.program idx (if parameter1 < parameter2 then 1 else 0),
         pointer := m.pointer + 4 }

/-- `IntcodeComputer::eql` (day19). -/
def eql (m : IntcodeComputer) (op : Operation) (relative_base : Int) :
    Except VMError IntcodeComputer := do
  let parameter1 := get_first_parameter m op.first_parameter_mode relative_base
  let parameter2 := get_second_parameter m op.second_parameter_mode relative_base
  let idx ← result_index m op.third_parameter_mode relative_base
  pure { m with
         program := store m.program idx (if parameter1 = parameter2 then 1 else 0),
         pointer := m.pointer + 4 }

/-- `IntcodeComputer::arb` (day19): mutates the local `relative_base` of
`run`; returns the new base alongside the machine. -/
def arb (m : IntcodeComputer) (op : Operation) (relative_base : Int) :
    IntcodeComputer × Int :=
  ({ m with pointer := m.pointer + 2 },
   relative_base + get_first_parameter m op.first_parameter_mode relative_base)

/-- Outcome of one iteration of the `loop` body of day19's `run`; `cont`
carries the (possibly updated) local `relative_base`. -/
inductive StepOut where
  | cont (m : IntcodeComputer) (relative_base : Int)
      (input : List Int) (output : List Int)
  | haltBrk
  | failPanic (e : VMError)

/-- The `match operation.operation` block of day19's `run`: no empty-queue
guard on `CPY` (it blocks, i.e. panics, on starvation). -/
def execOp (m : IntcodeComputer) (relative_base : Int) (op : Operation)
    (input output : List Int) : StepOut :=
  match op.operation with
  | .SUM => match sum m op relative_base with
            | .ok m₁ => .cont m₁ relative_base input output
            | .error e => .failPanic e
  | .MUL => match mul m op relative_base with
            | .ok m₁ => .cont m₁ relative_base input output
            | .error e => .failPanic e
  | .CPY => match cpy m input op relative_base with
            | .ok (m₁, rest) => .cont m₁ relative_base rest output
            | .error e => .failPanic e
  | .OUT => let r := out m op relative_base
            .cont r.1 relative_base input (output ++ [r.2])
  | .JIT => .cont (jit m op relative_base) relative_base input output
  | .JIF => .cont (jif m op relative_base) relative_base input output
  | .LTH => match lth m op relative_base with
            | .ok m₁ => .cont m₁ relative_base input output
            | .error e => .failPanic e
  | .EQL => match eql m op relative_base with
            | .ok m₁ => .cont m₁ relative_base input output
            | .error e => .failPanic e
  | .ARB => let r := arb m op relative_base
            .cont r.1 r.2 input output
  | .END => .haltBrk

/-- Result of an invocation of day19's `run`. -/
inductive RunResult where
  | done (m : IntcodeComputer) (input : List Int) (output : List Int)
  | failed (e : VMError)
  | fuelOut (m : IntcodeComputer) (input : List Int) (output : List Int)

/-- The `loop` of day19's `run`, threading the local `relative_base`. -/
def runLoop : Nat → IntcodeComputer → Int → List Int → List Int → RunResult
  | 0, m, _, input, output => .fuelOut m input output
  | n + 1, m, relative_base, input, output =>
    match parse_instruction m with
    | .error e => .failed e
    | .ok op =>
      match execOp m relative_base op input output with
      | .cont m₁ rb₁ input₁ output₁ => runLoop n m₁ rb₁ input₁ output₁
      | .haltBrk => .done { m with halted := true } input output
      | .failPanic e => .failed e

/-- `IntcodeComputer::run` (day19): `relative_base` is a fresh local,
initialised to 0 on every invocation; the output buffer starts empty. -/
def run (fuel : Nat) (m : IntcodeComputer) (input : List Int) : RunResult :=
  runLoop fuel m 0 input []

end Day19

/-- The relative-addressing quine of the Intcode test suite. -/
def quineProgram : List Int :=
  [109, 1, 204, -1, 1001, 100, 1, 100, 1008, 100, 16, 101, 1006, 101, 0, 99]

/-- A negative word truncating-mods to a non-positive residue. -/
theorem tmod_hundred_nonpos (w : Int) (h : w < 0) : w.tmod 100 ≤ 0 := by
  cases w with
  | ofNat n => exact absurd h (Int.not_lt.mpr (Int.ofNat_zero_le n))
  | negSucc n => simp [Int.tmod]; omega

/-- No non-positive residue is a recognised operation code. -/
theorem from_i64_nonpos (t : Int) (ht : t ≤ 0) :
    OperationType.from_i64 t = .error (.invalidOpcode t) := by
  unfold OperationType.from_i64
  split_ifs <;> first | rfl | omega

/-- One `run` iteration treats input appended beyond what it consumes as
inert: a continuing step on `inp` is the same step on `inp ++ inp₂`, with
`inp₂` still pending. -/
theorem Day25.execOp_append_cont (m : Day25.IntcodeComputer) (op : Operation)
    (inp inp₂ out : List Int) (m₁ : Day25.IntcodeComputer) (i₁ o₁ : List Int)
    (h : Day25.execOp m op inp out = .cont m₁ i₁ o₁) :
    Day25.execOp m op (inp ++ inp₂) out = .cont m₁ (i₁ ++ inp₂) o₁ := by
  unfold Day25.execOp at h ⊢
  cases hop : op.operation <;> simp [hop] at h ⊢
  case SUM =>
    cases hs : Day25.sum m op <;> simp [hs] at h ⊢
    simp_all
  case MUL =>
    cases hs : Day25.mul m op <;> simp [hs] at h ⊢
    simp_all
  case CPY =>
    cases inp with
    | nil => simp at h
    | cons v vs =>
      simp at h ⊢
      cases hmode : op.first_parameter_mode <;> simp [Day25.cpy, hmode] at h ⊢ <;>
        simp_all
  case OUT => simp_all
  case JIT => simp_all
  case JIF => simp_all
  case LTH =>
    cases hs : Day25.lth m op <;> simp [hs] at h ⊢
    simp_all
  case EQL =>
    cases hs : Day25.eql m op <;> simp [hs] at h ⊢
    simp_all
  case ARB => simp_all

/-- A `run` invocation that returned (halt or suspension) returns the same
thing under any larger fuel bound: the bound is an artefact of the
embedding, not of the engine. -/
theorem Day25.runLoop_done_mono (n : Nat) :
    ∀ (m : Day25.IntcodeComputer) (i o : List Int) (m' : Day25.IntcodeComputer)
      (i' o' : List Int) (k : Nat),
    Day25.runLoop n m i o = .done m' i' o' →
    Day25.runLoop (n + k) m i o = .done m' i' o' := by
  induction n with
  | zero => intro m i o m' i' o' k h; simp [Day25.runLoop] at h
  | succ n ih =>
    intro m i o m' i' o' k h
    have hkk : n + 1 + k = (n + k) + 1 := by omega
    rw [hkk]
    rw [Day25.runLoop] at h ⊢
    cases hp : Day25.parse_instruction m with
    | error e => simp [hp] at h
    | ok op =>
      simp only [hp] at h ⊢
      cases he : Day25.execOp m op i o with
      | cont m₁ i₁ o₁ => simp only [he] at h ⊢; exact ih m₁ i₁ o₁ m' i' o' k h
      | suspendRet => simp only [he] at h ⊢; exact h
      | haltBrk => simp only [he] at h ⊢; exact h
      | failPanic e => simp [he] at h

/-- Every continuing day19 step leaves the saved `original` image alone. -/
theorem Day19.execOp_cont_original (m : Day19.IntcodeComputer) (rb : Int)
    (op : Operation) (i o : List Int) (m₁ : Day19.IntcodeComputer) (rb₁ : Int)
    (i₁ o₁ : List Int) (h : Day19.execOp m rb op i o = .cont m₁ rb₁ i₁ o₁) :
    m₁.original = m.original := by
  unfold Day19.execOp at h
  cases hop : op.operation <;> simp [hop] at h
  case SUM =>
    cases hs : Day19.sum m op rb <;> simp [hs] at h
    obtain ⟨h1, -, -, -⟩ := h
    subst h1
    revert hs
    unfold Day19.sum
    cases hi : Day19.result_index m op.third_parameter_mode rb <;>
      simp [hi, Bind.bind, Except.bind, Pure.pure, Except.pure]
    intro hv
    rw [← hv]
  case MUL =>
    cases hs : Day19.mul m op rb <;> simp [hs] at h
    obtain ⟨h1, -, -, -⟩ := h
    subst h1
    revert hs
    unfold Day19.mul
    cases hi : Day19.result_index m op.third_parameter_mode rb <;>
      simp [hi, Bind.bind, Except.bind, Pure.pure, Except.pure]
    intro hv
    rw [← hv]
  case CPY =>
    cases inp : i with
    | nil => subst inp; simp [Day19.cpy] at h
    | cons v vs =>
      subst inp
      cases hmode : op.first_parameter_mode <;> simp [Day19.cpy, hmode] at h <;>
        · obtain ⟨h1, -, -, -⟩ := h
          rw [← h1]
  case OUT =>
    obtain ⟨h1, -, -, -⟩ := h
    rw [← h1]
    rfl
  case JIT =>
    obtain ⟨h1, -, -, -⟩ := h
    rw [← h1]
    simp only [Day19.jit]
    split <;> rfl
  case JIF =>
    obtain ⟨h1, -, -, -⟩ := h
    rw [← h1]
    simp only [Day19.jif]
    split <;> rfl
  case LTH =>
    cases hs : Day19.lth m op rb <;> simp [hs] at h
    obtain ⟨h1, -, -, -⟩ := h
    subst h1
    revert hs
    unfold Day19.lth
    cases hi : Day19.result_index m op.third_parameter_mode rb <;>
      simp [hi, Bind.bind, Except.bind, Pure.pure, Except.pure]
    intro hv
    rw [← hv]
  case EQL =>
    cases hs : Day19.eql m op rb <;> simp [hs] at h
    obtain ⟨h1, -, -, -⟩ := h
    subst h1
    revert hs
    unfold Day19.eql
    cases hi : Day19.result_index m op.third_parameter_mode rb <;>
      simp [hi, Bind.bind, Except.bind, Pure.pure, Except.pure]
    intro hv
    rw [← hv]
  case ARB =>
    obtain ⟨h1, -, -, -⟩ := h
    rw [← h1]
    rfl

/-- C1: day25's `run`, on a machine whose next instruction is an input
instruction (`CPY`) and whose input queue is empty, returns the output
produced so far with the machine completely untouched — the instruction
pointer still at the `CPY` and the halted flag unchanged (false); and when
the host makes at least one input value available, the next invocation
re-executes that same `CPY`, consuming exactly the newly available head
value. -/
theorem c1_input_starvation_suspends_and_resumes (n : Nat)
    (m : Day25.IntcodeComputer) (out : List Int) (op : Operation)
    (hp : Day25.parse_instruction m = .ok op) (hop : op.operation = .CPY) :
    (Day25.runLoop (n + 1) m [] out = .done m [] out) ∧
    (∀ (v : Int) (vs : List Int) (m₁ : Day25.IntcodeComputer) (rest : List Int),
      Day25.cpy m (v :: vs) op = .ok (m₁, rest) →
      rest = vs ∧
      Day25.runLoop (n + 1) m (v :: vs) out = Day25.runLoop n m₁ vs out) := by
  constructor
  · simp [Day25.runLoop, hp, Day25.execOp, hop]
  · intro v vs m₁ rest hc
    have hrest : rest = vs := by
      unfold Day25.cpy at hc
      cases h : op.first_parameter_mode <;> simp [h] at hc <;> exact hc.2.symm
    refine ⟨hrest, ?_⟩
    simp [Day25.runLoop, hp, Day25.execOp, hop, hc, hrest]

theorem c1_witness :
    (Day25.runLoop 3 (Day25.mkComputer (parse [3, 0, 4, 0, 99])) [] [] =
      .done (Day25.mkComputer (parse [3, 0, 4, 0, 99])) [] []) ∧
    (Day25.runLoop 3 (Day25.mkComputer (parse [3, 0, 4, 0, 99])) [7] [] =
      Day25.runLoop 2
        { program := store (parse [3, 0, 4, 0, 99]) 0 7, pointer := 2,
          halted := false, relative_base := 0 } [] []) :=
  ⟨(c1_input_starvation_suspends_and_resumes 2
      (Day25.mkComputer (parse [3, 0, 4, 0, 99])) []
      ⟨.CPY, .PositionMode, .PositionMode, .PositionMode⟩ rfl rfl).1,
   ((c1_input_starvation_suspends_and_resumes 2
      (Day25.mkComputer (parse [3, 0, 4, 0, 99])) []
      ⟨.CPY, .PositionMode, .PositionMode, .PositionMode⟩ rfl rfl).2 7 []
      { program := store (parse [3, 0, 4, 0, 99]) 0 7, pointer := 2,
        halted := false, relative_base := 0 } [] rfl).2⟩

/-- C4: the decoder computes opcode and mode digits by truncating remainder
and successive truncating division — for non-negative words these agree
with the mathematical `w % 100`, `w / 100 % 10`, `w / 1000 % 10`,
`w / 10000 % 10`; digits absent from the word are 0 (position mode); and
the word 1002 decodes to multiply with modes position, immediate,
position. -/
theorem c4_decoder_digit_extraction :
    (∀ w : Int, 0 ≤ w →
      w.tmod 100 = w % 100 ∧
      (w.tdiv 100).tmod 10 = w / 100 % 10 ∧
      ((w.tdiv 100).tdiv 10).tmod 10 = w / 1000 % 10 ∧
      (((w.tdiv 100).tdiv 10).tdiv 10).tmod 10 = w / 10000 % 10) ∧
    (∀ w : Int, 0 ≤ w → w < 1000 →
      ((w.tdiv 100).tdiv 10).tmod 10 = 0 ∧
      (((w.tdiv 100).tdiv 10).tdiv 10).tmod 10 = 0) ∧
    (∀ m : Day25.IntcodeComputer, m.program m.pointer = 1002 →
      Day25.parse_instruction m =
        .ok ⟨.MUL, .PositionMode, .ImmediateMode, .PositionMode⟩) := by
  have key : ∀ w : Int, 0 ≤ w →
      w.tmod 100 = w % 100 ∧
      (w.tdiv 100).tmod 10 = w / 100 % 10 ∧
      ((w.tdiv 100).tdiv 10).tmod 10 = w / 1000 % 10 ∧
      (((w.tdiv 100).tdiv 10).tdiv 10).tmod 10 = w / 10000 % 10 := by
    intro w hw
    have h1 : w.tdiv 100 = w / 100 := Int.tdiv_eq_ediv hw (by norm_num)
    have h2 : (0:Int) ≤ w / 100 := Int.ediv_nonneg hw (by norm_num)
    have h3 : (w / 100).tdiv 10 = w / 100 / 10 := Int.tdiv_eq_ediv h2 (by norm_num)
    have h4 : (0:Int) ≤ w / 100 / 10 := Int.ediv_nonneg h2 (by norm_num)
    have h5 : (w / 100 / 10).tdiv 10 = w / 100 / 10 / 10 :=
      Int.tdiv_eq_ediv h4 (by norm_num)
    refine ⟨Int.tmod_eq_emod hw (by norm_num), ?_, ?_, ?_⟩
    · rw [h1, Int.tmod_eq_emod h2 (by norm_num)]
    · rw [h1, h3, Int.tmod_eq_emod h4 (by norm_num)]
      omega
    · rw [h1, h3, h5, Int.tmod_eq_emod (by positivity) (by norm_num)]
      omega
  refine ⟨key, ?_, ?_⟩
  · intro w hw hlt
    obtain ⟨-, -, ha, hb⟩ := key w hw
    rw [ha, hb]
    constructor <;> omega
  · intro m hm
    simp only [Day25.parse_instruction, hm]
    rfl

theorem c4_witness :
    ((1002 : Int).tmod 100 = 1002 % 100 ∧
     ((1002 : Int).tdiv 100).tmod 10 = 1002 / 100 % 10 ∧
     (((1002 : Int).tdiv 100).tdiv 10).tmod 10 = 1002 / 1000 % 10 ∧
     ((((1002 : Int).tdiv 100).tdiv 10).tdiv 10).tmod 10 = 1002 / 10000 % 10) ∧
    Day25.parse_instruction (Day25.mkComputer (parse [1002, 4, 3, 4, 33])) =
      .ok ⟨.MUL, .PositionMode, .ImmediateMode, .PositionMode⟩ :=
  ⟨c4_decoder_digit_extraction.1 1002 (by decide),
   c4_decoder_digit_extraction.2.2 (Day25.mkComputer (parse [1002, 4, 3, 4, 33]))
     rfl⟩

/-- C5: the addressing-mode resolver — position-mode reads dereference the
raw word at pointer+offset, immediate-mode reads return the raw word
itself, relative-mode reads dereference relative base plus the raw word;
position-mode write targets are the raw word, relative-mode write targets
are relative base plus the raw word (shown both for the shared third-operand
write-target resolution and for the input instruction's first-operand
write target). -/
theorem c5_addressing_mode_resolution (m : Day25.IntcodeComputer)
    (offset : Int) :
    (Day25.get_parameter m .PositionMode offset =
      m.program (m.program (m.pointer + offset))) ∧
    (Day25.get_parameter m .ImmediateMode offset = m.program (m.pointer + offset)) ∧
    (Day25.get_parameter m .RelativeMode offset =
      m.program (m.relative_base + m.program (m.pointer + offset))) ∧
    (Day25.result_index m .PositionMode = .ok (m.program (m.pointer + 3))) ∧
    (Day25.result_index m .RelativeMode =
      .ok (m.relative_base + m.program (m.pointer + 3))) ∧
    (∀ (v : Int) (vs : List Int) (op : Operation),
      op.first_parameter_mode = .PositionMode →
      Day25.cpy m (v :: vs) op =
        .ok ({ m with program := store m.program (m.program (m.pointer + 1)) v,
                      pointer := m.pointer + 2 }, vs)) ∧
    (∀ (v : Int) (vs : List Int) (op : Operation),
      op.first_parameter_mode = .RelativeMode →
      Day25.cpy m (v :: vs) op =
        .ok ({ m with
               program := store m.program
                 (m.relative_base + m.program (m.pointer + 1)) v,
               pointer := m.pointer + 2 }, vs)) := by
  refine ⟨rfl, rfl, rfl, rfl, rfl, ?_, ?_⟩ <;>
    · intro v vs op h
      simp [Day25.cpy, h]

theorem c5_witness :
    Day25.cpy (Day25.mkComputer (parse [3, 0, 99])) (5 :: [])
      ⟨.CPY, .PositionMode, .PositionMode, .PositionMode⟩ =
      .ok ({ Day25.mkComputer (parse [3, 0, 99]) with
             program := store (Day25.mkComputer (parse [3, 0, 99])).program
               ((Day25.mkComputer (parse [3, 0, 99])).program
                 ((Day25.mkComputer (parse [3, 0, 99])).pointer + 1)) 5,
             pointer := (Day25.mkComputer (parse [3, 0, 99])).pointer + 2 }, []) :=
  (c5_addressing_mode_resolution (Day25.mkComputer (parse [3, 0, 99]))
    1).2.2.2.2.2.1 5 [] ⟨.CPY, .PositionMode, .PositionMode, .PositionMode⟩ rfl

/-- C6: the fatal conditions and their errors — an unrecognised decoded
opcode fails with `invalidOpcode` exactly when the residue is none of the
nine operation codes or 99; a mode digit outside 0, 1, 2 fails with
`invalidParameterMode`; immediate mode as a write target fails with
`invalidWriteMode` (both at the shared third-operand write-target
resolution and at the input instruction); and the run loop propagates every
fatal condition unchanged, with no masking or retry. -/
theorem c6_error_taxonomy :
    (∀ n : Int, OperationType.from_i64 n = .error (.invalidOpcode n) ↔
      n ∉ ([1, 2, 3, 4, 5, 6, 7, 8, 9, 99] : List Int)) ∧
    (∀ n : Int, ParameterMode.from_i64 n = .error (.invalidParameterMode n) ↔
      n ∉ ([0, 1, 2] : List Int)) ∧
    (∀ m : Day25.IntcodeComputer,
      Day25.result_index m .ImmediateMode = .error .invalidWriteMode) ∧
    (∀ (m : Day25.IntcodeComputer) (v : Int) (vs : List Int) (op : Operation),
      op.first_parameter_mode = .ImmediateMode →
      Day25.cpy m (v :: vs) op = .error .invalidWriteMode) ∧
    (∀ (n : Nat) (m : Day25.IntcodeComputer) (i o : List Int) (e : VMError),
      Day25.parse_instruction m = .error e →
      Day25.runLoop (n + 1) m i o = .failed e) ∧
    (∀ (n : Nat) (m : Day25.IntcodeComputer) (i o : List Int) (op : Operation)
       (e : VMError),
      Day25.parse_instruction m = .ok op →
      Day25.execOp m op i o = .failPanic e →
      Day25.runLoop (n + 1) m i o = .failed e) := by
  refine ⟨?_, ?_, ?_, ?_, ?_, ?_⟩
  · intro n
    unfold OperationType.from_i64
    split_ifs with h1 h2 h3 h4 h5 h6 h7 h8 h9 h10 <;> simp_all
  · intro n
    unfold ParameterMode.from_i64
    split_ifs with h1 h2 h3 <;> simp_all
  · intro m
    rfl
  · intro m v vs op h
    simp [Day25.cpy, h]
  · intro n m i o e hp
    simp [Day25.runLoop, hp]
  · intro n m i o op e hp he
    simp [Day25.runLoop, hp, he]

theorem c6_witness :
    OperationType.from_i64 42 = .error (.invalidOpcode 42) ∧
    ParameterMode.from_i64 7 = .error (.invalidParameterMode 7) ∧
    Day25.runLoop 1 (Day25.mkComputer (parse [42])) [] [] =
      .failed (.invalidOpcode 42) :=
  ⟨(c6_error_taxonomy.1 42).mpr (by decide),
   (c6_error_taxonomy.2.1 7).mpr (by decide),
   c6_error_taxonomy.2.2.2.2.1 0 (Day25.mkComputer (parse [42])) [] []
     (.invalidOpcode 42) rfl⟩

/-- C7: memory is an unbounded sparse map — a write to any address
succeeds and a read of that address afterwards returns exactly the written
value, a read of any other address is unaffected by the write, and a read
of an address outside everything the initial image populated yields 0. -/
theorem c7_sparse_memory_semantics :
    (∀ (mem : Int → Int) (a v : Int), store mem a v a = v) ∧
    (∀ (mem : Int → Int) (a v x : Int), x ≠ a → store mem a v x = mem x) ∧
    (∀ (l : List Int) (a : Int), ¬(0 ≤ a ∧ a.toNat < l.length) → parse l a = 0) := by
  refine ⟨?_, ?_, ?_⟩
  · intro mem a v
    simp [store]
  · intro mem a v x h
    simp [store, h]
  · intro l a h
    simp [parse, h]

theorem c7_witness :
    store (parse [1, 2]) 1000000 9 1000000 = 9 ∧
    store (parse [1, 2]) 1000000 9 1 = parse [1, 2] 1 ∧
    parse [1, 2] 1000000 = 0 :=
  ⟨c7_sparse_memory_semantics.1 (parse [1, 2]) 1000000 9,
   c7_sparse_memory_semantics.2.1 (parse [1, 2]) 1000000 9 1 (by decide),
   c7_sparse_memory_semantics.2.2 [1, 2] 1000000 (by decide)⟩

/-- C8: the less-than and equals instructions write exactly one memory
cell, at the resolved target (whatever its addressing mode), and the value
written is `if op1 < op2 then 1 else 0` (respectively
`if op1 = op2 then 1 else 0`) — in particular always 0 or 1. -/
theorem c8_comparisons_write_zero_or_one (m : Day25.IntcodeComputer)
    (op : Operation) (m₁ : Day25.IntcodeComputer) :
    (Day25.lth m op = .ok m₁ →
      ∃ idx, m₁.program = store m.program idx
          (if Day25.get_first_parameter m op.first_parameter_mode <
              Day25.get_second_parameter m op.second_parameter_mode
           then 1 else 0) ∧
        (m₁.program idx = 0 ∨ m₁.program idx = 1)) ∧
    (Day25.eql m op = .ok m₁ →
      ∃ idx, m₁.program = store m.program idx
          (if Day25.get_first_parameter m op.first_parameter_mode =
              Day25.get_second_parameter m op.second_parameter_mode
           then 1 else 0) ∧
        (m₁.program idx = 0 ∨ m₁.program idx = 1)) := by
  constructor
  · intro h
    unfold Day25.lth at h
    cases hi : Day25.result_index m op.third_parameter_mode with
    | error e => simp [hi, Bind.bind, Except.bind] at h
    | ok idx =>
      simp [hi, Bind.bind, Except.bind, Pure.pure, Except.pure] at h
      subst h
      refine ⟨idx, rfl, ?_⟩
      simp [store]
      omega
  · intro h
    unfold Day25.eql at h
    cases hi : Day25.result_index m op.third_parameter_mode with
    | error e => simp [hi, Bind.bind, Except.bind] at h
    | ok idx =>
      simp [hi, Bind.bind, Except.bind, Pure.pure, Except.pure] at h
      subst h
      refine ⟨idx, rfl, ?_⟩
      simp [store]
      omega

theorem c8_witness :
    ∃ idx,
      ({ program := store (parse [7, 1, 2, 0, 99]) 0 1, pointer := 4,
         halted := false, relative_base := 0 } : Day25.IntcodeComputer).program =
        store (Day25.mkComputer (parse [7, 1, 2, 0, 99])).program idx
          (if Day25.get_first_parameter (Day25.mkComputer (parse [7, 1, 2, 0, 99]))
                ParameterMode.PositionMode <
              Day25.get_second_parameter (Day25.mkComputer (parse [7, 1, 2, 0, 99]))
                ParameterMode.PositionMode
           then 1 else 0) ∧
      (({ program := store (parse [7, 1, 2, 0, 99]) 0 1, pointer := 4,
          halted := false, relative_base := 0 } : Day25.IntcodeComputer).program idx = 0 ∨
       ({ program := store (parse [7, 1, 2, 0, 99]) 0 1, pointer := 4,
          halted := false, relative_base := 0 } : Day25.IntcodeComputer).program idx = 1) :=
  (c8_comparisons_write_zero_or_one (Day25.mkComputer (parse [7, 1, 2, 0, 99]))
    ⟨.LTH, .PositionMode, .PositionMode, .PositionMode⟩
    { program := store (parse [7, 1, 2, 0, 99]) 0 1, pointer := 4,
      halted := false, relative_base := 0 }).1 rfl

/-- C10: every negative instruction word fails decoding with the
unknown-operation error: the truncating remainder of a negative word by 100
is non-positive, hence never one of the valid codes 1–9 or 99, even when
the mathematical residue modulo 100 would be valid (e.g. −199, whose
mathematical residue is 1 but whose truncating remainder is −99). -/
theorem c10_negative_words_never_decode (m : Day25.IntcodeComputer)
    (hm : m.program m.pointer < 0) :
    Day25.parse_instruction m =
      .error (.invalidOpcode ((m.program m.pointer).tmod 100)) := by
  have h : (m.program m.pointer).tmod 100 ≤ 0 := tmod_hundred_nonpos _ hm
  have hop := from_i64_nonpos ((m.program m.pointer).tmod 100) h
  simp [Day25.parse_instruction, hop, Bind.bind, Except.bind]

theorem c10_witness :
    Day25.parse_instruction (Day25.mkComputer (parse [-199])) =
      .error (.invalidOpcode (-99)) :=
  c10_negative_words_never_decode (Day25.mkComputer (parse [-199])) (by decide)

/-- C2: a `run` invocation on a machine left suspended by a previous
invocation resumes with exactly the state the previous invocation left
(same pointer, memory and relative base): running the suspended machine
with fresh input continues the original computation as if the input had
been available all along.  Further, the relative base of a freshly
constructed machine is zero, every opcode handler other than
adjust-relative-base leaves the relative base unchanged, and
adjust-relative-base adds its first parameter to it — the base is a
persistent machine field, so it carries across invocations. -/
theorem c2_resume_exact_machine_state :
    (∀ (f g : Nat) (m : Day25.IntcodeComputer) (inp inp₂ out : List Int)
       (m₁ : Day25.IntcodeComputer) (out₁ : List Int)
       (m₂ : Day25.IntcodeComputer) (i₂ o₂ : List Int),
      Day25.runLoop f m inp out = .done m₁ [] out₁ →
      m₁.halted = false →
      Day25.runLoop g m₁ inp₂ out₁ = .done m₂ i₂ o₂ →
      Day25.runLoop (f + g) m (inp ++ inp₂) out = .done m₂ i₂ o₂) ∧
    (∀ p : Int → Int, (Day25.mkComputer p).relative_base = 0) ∧
    (∀ (m : Day25.IntcodeComputer) (op : Operation) (m₁ : Day25.IntcodeComputer),
      Day25.sum m op = .ok m₁ → m₁.relative_base = m.relative_base) ∧
    (∀ (m : Day25.IntcodeComputer) (op : Operation) (m₁ : Day25.IntcodeComputer),
      Day25.mul m op = .ok m₁ → m₁.relative_base = m.relative_base) ∧
    (∀ (m : Day25.IntcodeComputer) (input : List Int) (op : Operation)
       (m₁ : Day25.IntcodeComputer) (rest : List Int),
      Day25.cpy m input op = .ok (m₁, rest) → m₁.relative_base = m.relative_base) ∧
    (∀ (m : Day25.IntcodeComputer) (op : Operation),
      (Day25.out m op).1.relative_base = m.relative_base) ∧
    (∀ (m : Day25.IntcodeComputer) (op : Operation),
      (Day25.jit m op).relative_base = m.relative_base) ∧
    (∀ (m : Day25.IntcodeComputer) (op : Operation),
      (Day25.jif m op).relative_base = m.relative_base) ∧
    (∀ (m : Day25.IntcodeComputer) (op : Operation) (m₁ : Day25.IntcodeComputer),
      Day25.lth m op = .ok m₁ → m₁.relative_base = m.relative_base) ∧
    (∀ (m : Day25.IntcodeComputer) (op : Operation) (m₁ : Day25.IntcodeComputer),
      Day25.eql m op = .ok m₁ → m₁.relative_base = m.relative_base) ∧
    (∀ (m : Day25.IntcodeComputer) (op : Operation),
      (Day25.arb m op).relative_base =
        m.relative_base + Day25.get_first_parameter m op.first_parameter_mode) := by
  refine ⟨?_, fun p => rfl, ?_, ?_, ?_, fun m op => rfl, ?_, ?_, ?_, ?_,
    fun m op => rfl⟩
  · intro f
    induction f with
    | zero =>
      intro g m inp inp₂ out m₁ out₁ m₂ i₂ o₂ h1 _ _
      simp [Day25.runLoop] at h1
    | succ n ih =>
      intro g m inp inp₂ out m₁ out₁ m₂ i₂ o₂ h1 hh h2
      rw [Day25.runLoop] at h1
      cases hp : Day25.parse_instruction m with
      | error e => simp [hp] at h1
      | ok op =>
        simp only [hp] at h1
        cases he : Day25.execOp m op inp out with
        | cont m' i' o' =>
          simp only [he] at h1
          have hkk : n + 1 + g = (n + g) + 1 := by omega
          rw [hkk, Day25.runLoop]
          simp only [hp]
          rw [Day25.execOp_append_cont m op inp inp₂ out m' i' o' he]
          exact ih g m' i' inp₂ o' m₁ out₁ m₂ i₂ o₂ h1 hh h2
        | suspendRet =>
          simp only [he, Day25.RunResult.done.injEq] at h1
          obtain ⟨hm1, hinp, hout⟩ := h1
          subst hm1; subst hout; subst hinp
          simp only [List.nil_append]
          rw [show n + 1 + g = g + (n + 1) by omega]
          exact Day25.runLoop_done_mono g m inp₂ out m₂ i₂ o₂ (n + 1) h2
        | haltBrk =>
          simp only [he, Day25.RunResult.done.injEq] at h1
          obtain ⟨hm1, -, -⟩ := h1
          rw [← hm1] at hh
          simp at hh
        | failPanic e => simp [he] at h1
  · intro m op m₁ h
    revert h
    unfold Day25.sum
    cases hi : Day25.result_index m op.third_parameter_mode <;>
      simp [hi, Bind.bind, Except.bind, Pure.pure, Except.pure]
    intro hv
    rw [← hv]
  · intro m op m₁ h
    revert h
    unfold Day25.mul
    cases hi : Day25.result_index m op.third_parameter_mode <;>
      simp [hi, Bind.bind, Except.bind, Pure.pure, Except.pure]
    intro hv
    rw [← hv]
  · intro m input op m₁ rest h
    revert h
    unfold Day25.cpy
    cases input with
    | nil => simp
    | cons v vs =>
      cases hmode : op.first_parameter_mode <;> simp [hmode] <;>
        · intro h1 h2
          rw [← h1]
  · intro m op
    simp only [Day25.jit]
    split <;> rfl
  · intro m op
    simp only [Day25.jif]
    split <;> rfl
  · intro m op m₁ h
    revert h
    unfold Day25.lth
    cases hi : Day25.result_index m op.third_parameter_mode <;>
      simp [hi, Bind.bind, Except.bind, Pure.pure, Except.pure]
    intro hv
    rw [← hv]
  · intro m op m₁ h
    revert h
    unfold Day25.eql
    cases hi : Day25.result_index m op.third_parameter_mode <;>
      simp [hi, Bind.bind, Except.bind, Pure.pure, Except.pure]
    intro hv
    rw [← hv]

theorem c2_witness :
    Day25.runLoop 10 (Day25.mkComputer (parse [3, 0, 4, 0, 99])) ([] ++ [7]) [] =
      .done { program := store (parse [3, 0, 4, 0, 99]) 0 7, pointer := 4,
              halted := true, relative_base := 0 } [] [7] :=
  c2_resume_exact_machine_state.1 1 9 (Day25.mkComputer (parse [3, 0, 4, 0, 99]))
    [] [7] [] (Day25.mkComputer (parse [3, 0, 4, 0, 99])) []
    { program := store (parse [3, 0, 4, 0, 99]) 0 7, pointer := 4,
      halted := true, relative_base := 0 } [] [7] rfl rfl rfl

/-- C3: day19's `reset` produces exactly the machine `new` builds from the
saved original image — same image, pointer zero, halted flag clear — and
`run` never mutates the saved original; hence resetting and rerunning with
the same input yields the same result as a first run from a freshly
constructed machine with that image (the local relative base starts at
zero in both runs by construction of `run`). -/
theorem c3_reset_rerun_equals_fresh_run :
    (∀ (n : Nat) (m : Day19.IntcodeComputer) (rb : Int) (i o : List Int)
       (m' : Day19.IntcodeComputer) (i' o' : List Int),
      Day19.runLoop n m rb i o = .done m' i' o' → m'.original = m.original) ∧
    (∀ m : Day19.IntcodeComputer, Day19.reset m = Day19.new m.original) ∧
    (∀ (fuel : Nat) (m : Day19.IntcodeComputer) (input : List Int),
      Day19.run fuel (Day19.reset m) input =
        Day19.run fuel (Day19.new m.original) input) := by
  refine ⟨?_, fun m => rfl, fun fuel m input => rfl⟩
  intro n
  induction n with
  | zero => intro m rb i o m' i' o' h; simp [Day19.runLoop] at h
  | succ n ih =>
    intro m rb i o m' i' o' h
    rw [Day19.runLoop] at h
    cases hp : Day19.parse_instruction m with
    | error e => simp [hp] at h
    | ok op =>
      simp only [hp] at h
      cases he : Day19.execOp m rb op i o with
      | cont m₁ rb₁ i₁ o₁ =>
        simp only [he] at h
        rw [ih m₁ rb₁ i₁ o₁ m' i' o' h]
        exact Day19.execOp_cont_original m rb op i o m₁ rb₁ i₁ o₁ he
      | haltBrk =>
        simp only [he, Day19.RunResult.done.injEq] at h
        obtain ⟨h1, -, -⟩ := h
        rw [← h1]
      | failPanic e => simp [he] at h

theorem c3_witness :
    ({ original := parse [104, 5, 99], program := parse [104, 5, 99],
       pointer := 2, halted := true } : Day19.IntcodeComputer).original =
      (Day19.new (parse [104, 5, 99])).original ∧
    Day19.run 10 (Day19.reset (Day19.new (parse [104, 5, 99]))) [] =
      Day19.run 10 (Day19.new ((Day19.new (parse [104, 5, 99])).original)) [] :=
  ⟨c3_reset_rerun_equals_fresh_run.1 2 (Day19.new (parse [104, 5, 99])) 0 [] []
     { original := parse [104, 5, 99], program := parse [104, 5, 99],
       pointer := 2, halted := true } [] [5] rfl,
   c3_reset_rerun_equals_fresh_run.2.2 10 (Day19.new (parse [104, 5, 99])) []⟩

/-- C9: the day25 engine run on the relative-addressing quine
`109,1,204,-1,1001,100,1,100,1008,100,16,101,1006,101,0,99` with empty
input halts having produced exactly that sixteen-word program as its
output, exercising relative-mode read, relative-mode write target and
relative-base adjustment together. -/
theorem c9_quine_reproduces_itself :
    Day25.runOutput 200 (Day25.mkComputer (parse quineProgram)) [] =
      some quineProgram ∧
    Day25.runHaltedFlag 200 (Day25.mkComputer (parse quineProgram)) [] =
      some true :=
  ⟨rfl, rfl⟩
